import Mathlib

/-!
Shallow embedding of the backend-supervision core of the repository
(src/src-tauri/src/lib.rs).  The code supervises a single Python child
process: it reclaims the backend port, resolves an interpreter and a
working directory, spawns the child, stores its handle in a mutex-guarded
optional slot, polls a health endpoint for readiness, and tears the child
down on window close.

Modelling conventions:
- The OS / network environment (lsof output, directory existence, spawn
  outcome, per-attempt probe responses) is an explicit `Env` record.
- The mutex-guarded `Mutex<Option<Child>>` slot becomes an explicit
  `Option Nat` (the tracked pid) threaded through the functions; in this
  sequential embedding the lock always succeeds (no poisoning), so the
  `LockError` path of the source is vacuous and not modelled.
- Side effects (kill -9 on a port pid, kill/wait of the tracked child,
  spawn, the 500 ms grace sleep, the poll-loop sleeps) are recorded as
  explicit events so that ordering and occurrence can be stated.
- Path rendering of the source's format! messages is abstracted to fixed
  strings; everything else in the error strings is kept verbatim.
-/

namespace AgnoSupervisor

/-- Outcome of one HTTP GET against the health endpoint, as seen by
`reqwest::get`: either a response carrying a numeric status code, or a
transport-level failure. -/
inductive ProbeOutcome where
  | resp (status : Nat)
  | transportError (msg : String)
deriving DecidableEq

/-- `reqwest::StatusCode::is_success`: the status is in the 2xx class. -/
def is_success (status : Nat) : Bool :=
  200 ≤ status && status < 300

/-- Whether a probe outcome counts as the poll loop's success condition
(a response whose status is success-class). -/
def outcomeSuccess : ProbeOutcome → Bool
  | .resp s => is_success s
  | .transportError _ => false

/-- Events of the readiness poll loop: a sleep of `ms` milliseconds, or a
health request issued as attempt number `attempt`. -/
inductive PollEvent where
  | sleep (ms : Nat)
  | probe (attempt : Nat)
deriving DecidableEq

/-- Result of running the readiness poll loop: the returned value and the
ordered trace of sleeps and probes it performed. -/
structure PollRun where
  result : Except String Unit
  trace : List PollEvent

/-- The body of `wait_for_backend_ready`'s `for attempt in 1..=max_retries`
loop, as structural recursion over the number of remaining attempts.
Each iteration sleeps `delay` ms, then probes; a success-class response
returns `Ok(())`; any other response or a transport failure continues
(the source only logs there); an exhausted budget yields the timeout
error string of the source. -/
def runProbes (probe : Nat → ProbeOutcome) (delay : Nat) :
    Nat → Nat → PollRun
  | 0, _ => ⟨.error "Backend failed to start within timeout period", []⟩
  | remaining + 1, attempt =>
    match probe attempt with
    | .resp s =>
      if is_success s then
        ⟨.ok (), [.sleep delay, .probe attempt]⟩
      else
        let r := runProbes probe delay remaining (attempt + 1)
        ⟨r.result, .sleep delay :: .probe attempt :: r.trace⟩
    | .transportError _ =>
      let r := runProbes probe delay remaining (attempt + 1)
      ⟨r.result, .sleep delay :: .probe attempt :: r.trace⟩

/-- `wait_for_backend_ready(max_retries, delay_ms)`: run the poll loop
starting at attempt 1. -/
def wait_for_backend_ready (probe : Nat → ProbeOutcome)
    (max_retries : Nat) (delay_ms : Nat) : PollRun :=
  runProbes probe delay_ms max_retries 1

/-- Number of health requests issued in a poll trace. -/
def probeCount : List PollEvent → Nat
  | [] => 0
  | .probe _ :: rest => probeCount rest + 1
  | .sleep _ :: rest => probeCount rest

/-- Total milliseconds slept in a poll trace. -/
def elapsedMs : List PollEvent → Nat
  | [] => 0
  | .sleep ms :: rest => ms + elapsedMs rest
  | .probe _ :: rest => elapsedMs rest

/-- The expected trace of attempts `a, a+1, ..., a+n-1`, each a sleep
followed by a probe. -/
def pollTrace (delay : Nat) (a n : Nat) : List PollEvent :=
  ((List.range' a n).map fun i => [PollEvent.sleep delay, PollEvent.probe i]).flatten

/-- Observable side effects of the supervision code: a `kill -9` issued to
a pid string found on the port, the 500 ms grace sleep of the port
reclaimer, a kill of the tracked child, a blocking wait (reap) of the
tracked child, and a spawn of a new child. -/
inductive Event where
  | portKill (pid : String)
  | portGrace
  | kill (pid : Nat)
  | wait (pid : Nat)
  | spawned (pid : Nat)
deriving DecidableEq

/-- `kill_process_on_port` (unix branch): run `lsof -ti :port`; if that
invocation itself fails, return the error string.  If it succeeded with a
non-empty stdout, trim it, split it on newlines, `kill -9` every
non-empty pid line, then sleep 500 ms; otherwise the port is free and the
function returns at once.  The `lsofResult` argument is the outcome of
the `lsof` invocation: exit-status success flag and raw stdout. -/
def kill_process_on_port (lsofResult : Except String (Bool × String)) :
    Except String (List Event) :=
  match lsofResult with
  | .error e => .error ("Failed to check port (lsof not available?): " ++ e)
  | .ok (succ, out) =>
    if succ && !out.isEmpty then
      let pids := out.trim.splitOn "\n"
      let kills := (pids.filter fun p => !p.trim.isEmpty).map
        fun p => Event.portKill p.trim
      .ok (kills ++ [Event.portGrace])
    else
      .ok []

/-- The environment a `start_python_backend` call runs against: outcome of
the `lsof` invocation, outcome of `std::env::current_dir()`, existence of
`python-backend` under the current directory and under its parent,
existence of the parent itself, existence of `.venv/bin/python` in both
places, outcome of `Command::spawn` (the pid on success, the OS error
text on failure), and the per-attempt health-probe outcomes. -/
structure Env where
  lsofResult : Except String (Bool × String)
  currentDir : Except String Unit
  cwdHasBackendDir : Bool
  hasParent : Bool
  parentHasBackendDir : Bool
  cwdHasVenv : Bool
  parentHasVenv : Bool
  spawn : Except String Nat
  probe : Nat → ProbeOutcome

/-- The two candidate working directories for the child. -/
inductive BackendDir where
  | underCwd
  | underParent
deriving DecidableEq

/-- Abstracted rendering of the candidate directory path used in the
source's not-found message. -/
def backendDirPath : BackendDir → String
  | .underCwd => "cwd/python-backend"
  | .underParent => "parent/python-backend"

/-- Existence of the chosen candidate directory in the environment. -/
def backendDirExists (env : Env) : BackendDir → Bool
  | .underCwd => env.cwdHasBackendDir
  | .underParent => env.parentHasBackendDir

/-- The working-directory resolution of `start_python_backend`: prefer
`current_dir/python-backend` when it exists, else `parent/python-backend`
(failing when there is no parent), then fail with the not-found message
when the chosen candidate does not exist. -/
def resolve_backend_dir (env : Env) : Except String BackendDir :=
  let cand : Except String BackendDir :=
    if env.cwdHasBackendDir then .ok .underCwd
    else match env.hasParent with
      | true => .ok .underParent
      | false => .error "Cannot find parent directory"
  match cand with
  | .error e => .error e
  | .ok dir =>
    if !backendDirExists env dir then
      .error ("Python backend directory not found at: " ++ backendDirPath dir)
    else
      .ok dir

/-- The three possible interpreters of the source's resolution. -/
inductive PythonExe where
  | venvCwd
  | venvParent
  | system3
deriving DecidableEq

/-- The interpreter resolution of `start_python_backend`:
`current_dir/.venv/bin/python` when it exists, else the parent's
`.venv/bin/python` when the parent exists and has it, else the bare
`python3` command; total, it never returns an error. -/
def resolve_python_exe (env : Env) : PythonExe :=
  if env.cwdHasVenv then .venvCwd
  else if env.hasParent && env.parentHasVenv then .venvParent
  else .system3

/-- Result of a `start_python_backend` call: the returned
`Result<String, String>`, the final content of the tracked-process slot,
and the ordered trace of side effects. -/
structure StartResult where
  result : Except String String
  state : Option Nat
  events : List Event

/-- The kill-and-reap events `start_python_backend` performs on a
previously tracked process taken out of the slot. -/
def killExisting : Option Nat → List Event
  | some pid => [Event.kill pid, Event.wait pid]
  | none => []

/-- The events of the best-effort port cleanup at the top of
`start_python_backend`; a failure of `kill_process_on_port` is only
logged (eprintln), never escalated. -/
def portEventsOf (env : Env) : List Event :=
  match kill_process_on_port env.lsofResult with
  | .ok evs => evs
  | .error _ => []

/-- `start_python_backend`, as a transition on the tracked-process slot.
Order of the source: best-effort port cleanup (failure only logged);
`current_dir()` (`?` on failure); working-directory resolution (`?` on
failure, before the slot is touched); interpreter resolution (total);
take the tracked handle out of the slot and kill+wait it when present;
spawn; on spawn success store the new handle, then poll readiness with
(30, 500) and propagate its timeout error with the handle left stored;
on spawn failure return the spawn error with the slot left empty. -/
def start_python_backend (env : Env) (state : Option Nat) : StartResult :=
  let portEvents := portEventsOf env
  match env.currentDir with
  | .error e => ⟨.error ("Failed to get current directory: " ++ e), state, portEvents⟩
  | .ok _ =>
    match resolve_backend_dir env with
    | .error e => ⟨.error e, state, portEvents⟩
    | .ok _dir =>
      let _exe := resolve_python_exe env
      let killEvents := killExisting state
      match env.spawn with
      | .ok pid =>
        let poll := wait_for_backend_ready env.probe 30 500
        match poll.result with
        | .ok _ =>
          ⟨.ok "Python backend started successfully", some pid,
            portEvents ++ killEvents ++ [Event.spawned pid]⟩
        | .error e =>
          ⟨.error e, some pid, portEvents ++ killEvents ++ [Event.spawned pid]⟩
      | .error e =>
        ⟨.error ("Failed to start Python backend: " ++ e), none,
          portEvents ++ killEvents⟩

/-- `check_backend_health`: one GET against the health endpoint; a
response maps to `Ok(is_success)`, a transport failure to `Ok(false)`;
no path returns an error. -/
def check_backend_health (o : ProbeOutcome) : Except String Bool :=
  match o with
  | .resp s => .ok (is_success s)
  | .transportError _ => .ok false

/-- The window-close handler of `run`: lock the slot, take the handle out
(leaving `None`), and when one was present kill it and perform a blocking
wait; with nothing tracked it does nothing. -/
def shutdown_hook (state : Option Nat) : Option Nat × List Event :=
  match state with
  | some pid => (none, [Event.kill pid, Event.wait pid])
  | none => (none, [])

/-- Boolean success test on the source's `Result<String, String>`. -/
def resultIsOk : Except String String → Bool
  | .ok _ => true
  | .error _ => false

/-- A probe function that never succeeds (connection refused forever). -/
def probeNever : Nat → ProbeOutcome :=
  fun _ => ProbeOutcome.transportError "connection refused"

/-- A probe function whose server becomes healthy exactly on attempt 2. -/
def probeSecond : Nat → ProbeOutcome :=
  fun i => if i == 2 then ProbeOutcome.resp 200 else ProbeOutcome.resp 503

/-!  Lemmas about the readiness poll loop. -/

theorem pollTrace_succ (delay a n : Nat) :
    pollTrace delay a (n + 1) =
      PollEvent.sleep delay :: PollEvent.probe a :: pollTrace delay (a + 1) n := by
  simp [pollTrace, List.range'_succ]

theorem probeCount_pollTrace (delay a n : Nat) :
    probeCount (pollTrace delay a n) = n := by
  induction n generalizing a with
  | zero => rfl
  | succ k ih => rw [pollTrace_succ]; simp [probeCount, ih]

theorem elapsedMs_pollTrace (delay a n : Nat) :
    elapsedMs (pollTrace delay a n) = n * delay := by
  induction n generalizing a with
  | zero => simp [pollTrace, elapsedMs]
  | succ k ih => rw [pollTrace_succ]; simp [elapsedMs, ih]; ring

theorem runProbes_all_fail (probe : Nat → ProbeOutcome) (delay : Nat)
    (remaining attempt : Nat)
    (h : ∀ i, attempt ≤ i → i < attempt + remaining →
      outcomeSuccess (probe i) = false) :
    runProbes probe delay remaining attempt =
      ⟨Except.error "Backend failed to start within timeout period",
        pollTrace delay attempt remaining⟩ := by
  induction remaining generalizing attempt with
  | zero => simp [runProbes, pollTrace]
  | succ n ih =>
    have hfa : outcomeSuccess (probe attempt) = false := h attempt le_rfl (by omega)
    have ihs := ih (attempt + 1) (fun i h1 h2 => h i (by omega) (by omega))
    rw [pollTrace_succ]
    cases hp : probe attempt with
    | resp s =>
      have hs : is_success s = false := by simpa [outcomeSuccess, hp] using hfa
      simp [runProbes, hp, hs, ihs]
    | transportError m =>
      simp [runProbes, hp, ihs]

theorem runProbes_success (probe : Nat → ProbeOutcome) (delay : Nat)
    (k remaining attempt : Nat)
    (h1 : attempt ≤ k) (h2 : k < attempt + remaining)
    (hk : outcomeSuccess (probe k) = true)
    (hbef : ∀ i, attempt ≤ i → i < k → outcomeSuccess (probe i) = false) :
    runProbes probe delay remaining attempt =
      ⟨Except.ok (), pollTrace delay attempt (k + 1 - attempt)⟩ := by
  induction remaining generalizing attempt with
  | zero => omega
  | succ n ih =>
    by_cases he : attempt = k
    · subst he
      cases hp : probe attempt with
      | resp s =>
        have hs : is_success s = true := by simpa [outcomeSuccess, hp] using hk
        have h1 : attempt + 1 - attempt = 1 := by omega
        simp [runProbes, hp, hs, h1, pollTrace]
      | transportError m => simp [outcomeSuccess, hp] at hk
    · have hlt : attempt < k := by omega
      have hfa : outcomeSuccess (probe attempt) = false := hbef attempt le_rfl hlt
      have ihs := ih (attempt + 1) (by omega) (by omega)
        (fun i hi1 hi2 => hbef i (by omega) hi2)
      have heq : k + 1 - attempt = (k + 1 - (attempt + 1)) + 1 := by omega
      rw [heq, pollTrace_succ]
      cases hp : probe attempt with
      | resp s =>
        have hs : is_success s = false := by simpa [outcomeSuccess, hp] using hfa
        simp [runProbes, hp, hs, ihs]
      | transportError m => simp [runProbes, hp, ihs]

/-- Claim C2: if every probe fails (non-success status or transport
failure), `wait_for_backend_ready` with budget `max_attempts ≥ 1`
performs exactly `max_attempts` probes, each preceded by one sleep of
`delay` (including before the first attempt) — the trace is exactly
sleep-probe pairs for attempts 1..max_attempts — and returns the
timeout error. -/
theorem c2_timeout_after_exact_attempts (probe : Nat → ProbeOutcome)
    (max_attempts delay : Nat) (hmax : 1 ≤ max_attempts)
    (hfail : ∀ i, outcomeSuccess (probe i) = false) :
    (wait_for_backend_ready probe max_attempts delay).result =
      Except.error "Backend failed to start within timeout period" ∧
    (wait_for_backend_ready probe max_attempts delay).trace =
      pollTrace delay 1 max_attempts ∧
    probeCount (wait_for_backend_ready probe max_attempts delay).trace =
      max_attempts ∧
    elapsedMs (wait_for_backend_ready probe max_attempts delay).trace =
      max_attempts * delay := by
  have h := runProbes_all_fail probe delay max_attempts 1
    (fun i _ _ => hfail i)
  unfold wait_for_backend_ready
  rw [h]
  exact ⟨rfl, rfl, probeCount_pollTrace delay 1 max_attempts,
    elapsedMs_pollTrace delay 1 max_attempts⟩

/-- Witness for C2 at max_attempts = 3, delay = 10, against a server that
never answers. -/
theorem c2_timeout_after_exact_attempts_witness :
    (wait_for_backend_ready probeNever 3 10).result =
      Except.error "Backend failed to start within timeout period" ∧
    (wait_for_backend_ready probeNever 3 10).trace = pollTrace 10 1 3 ∧
    probeCount (wait_for_backend_ready probeNever 3 10).trace = 3 ∧
    elapsedMs (wait_for_backend_ready probeNever 3 10).trace = 3 * 10 :=
  c2_timeout_after_exact_attempts probeNever 3 10 (by decide) (fun _ => rfl)

/-- Claim C3: if the server first becomes healthy (success-class status)
on attempt `k ≤ max_attempts`, `wait_for_backend_ready` returns `Ok`
having performed exactly `k` probes and `k` sleeps of `delay` — the
trace is exactly sleep-probe pairs for attempts 1..k, so `k * delay`
milliseconds were slept and at most `max_attempts` probes were
issued. -/
theorem c3_success_on_attempt_k (probe : Nat → ProbeOutcome)
    (max_attempts delay k : Nat) (hk1 : 1 ≤ k) (hkm : k ≤ max_attempts)
    (hsucc : outcomeSuccess (probe k) = true)
    (hbef : ∀ i, 1 ≤ i → i < k → outcomeSuccess (probe i) = false) :
    (wait_for_backend_ready probe max_attempts delay).result = Except.ok () ∧
    (wait_for_backend_ready probe max_attempts delay).trace =
      pollTrace delay 1 k ∧
    probeCount (wait_for_backend_ready probe max_attempts delay).trace = k ∧
    elapsedMs (wait_for_backend_ready probe max_attempts delay).trace =
      k * delay ∧
    probeCount (wait_for_backend_ready probe max_attempts delay).trace ≤
      max_attempts := by
  have h := runProbes_success probe delay k max_attempts 1 hk1 (by omega) hsucc hbef
  have hk : k + 1 - 1 = k := by omega
  unfold wait_for_backend_ready
  rw [h, hk]
  exact ⟨rfl, rfl, probeCount_pollTrace delay 1 k,
    elapsedMs_pollTrace delay 1 k,
    by rw [probeCount_pollTrace]; omega⟩

/-- Witness for C3: budget 3, interval 10 ms, healthy on attempt 2:
success with exactly 2 probes and 20 ms slept. -/
theorem c3_success_on_attempt_k_witness :
    (wait_for_backend_ready probeSecond 3 10).result = Except.ok () ∧
    (wait_for_backend_ready probeSecond 3 10).trace = pollTrace 10 1 2 ∧
    probeCount (wait_for_backend_ready probeSecond 3 10).trace = 2 ∧
    elapsedMs (wait_for_backend_ready probeSecond 3 10).trace = 2 * 10 ∧
    probeCount (wait_for_backend_ready probeSecond 3 10).trace ≤ 3 :=
  c3_success_on_attempt_k probeSecond 3 10 2 (by decide) (by decide)
    (by decide)
    (by
      intro i h1 h2
      have hi : i = 1 := by omega
      subst hi
      decide)

/-- Claim C6: `check_backend_health` never returns an error: for every
outcome of the single health request it returns `Ok b` for some boolean,
and `Ok true` exactly when a response with a success-class (2xx) status
was received; any other status and any transport failure give
`Ok false`. -/
theorem c6_health_check_never_errors (o : ProbeOutcome) :
    (∃ b, check_backend_health o = Except.ok b) ∧
    (check_backend_health o = Except.ok true ↔
      ∃ s, o = ProbeOutcome.resp s ∧ 200 ≤ s ∧ s < 300) := by
  constructor
  · cases o <;> exact ⟨_, rfl⟩
  · cases o with
    | resp s =>
      simp only [check_backend_health, is_success]
      constructor
      · intro h
        refine ⟨s, rfl, ?_⟩
        have hb : (decide (200 ≤ s) && decide (s < 300)) = true :=
          Except.ok.inj h
        simpa [Bool.and_eq_true, decide_eq_true_iff] using hb
      · rintro ⟨t, ht, h1, h2⟩
        cases ht
        have : (decide (200 ≤ s) && decide (s < 300)) = true := by
          simp [Bool.and_eq_true, decide_eq_true_iff]
          exact ⟨h1, h2⟩
        rw [this]
    | transportError m =>
      simp [check_backend_health]

/-- Witness for C6: a 200 response maps to `Ok(true)`. -/
theorem c6_health_check_never_errors_witness :
    check_backend_health (ProbeOutcome.resp 200) = Except.ok true :=
  (c6_health_check_never_errors (ProbeOutcome.resp 200)).2.mpr
    ⟨200, rfl, by omega, by omega⟩

/-- Claim C7: interpreter resolution follows the decision order with the
first match winning: the cwd virtual environment when present, else the
parent's when the parent exists and has one, else the bare `python3`
command; being a total function into `PythonExe` it never produces an
error. -/
theorem c7_interpreter_resolution_order (env : Env) :
    (env.cwdHasVenv = true → resolve_python_exe env = PythonExe.venvCwd) ∧
    (env.cwdHasVenv = false → env.hasParent = true → env.parentHasVenv = true →
      resolve_python_exe env = PythonExe.venvParent) ∧
    (env.cwdHasVenv = false → (env.hasParent && env.parentHasVenv) = false →
      resolve_python_exe env = PythonExe.system3) := by
  refine ⟨?_, ?_, ?_⟩
  · intro h; simp [resolve_python_exe, h]
  · intro h hp hv; simp [resolve_python_exe, h, hp, hv]
  · intro h hb; simp [resolve_python_exe, h, hb]

/-- Witness for C7: a cwd without a venv whose parent has one resolves to
the parent's interpreter. -/
theorem c7_interpreter_resolution_order_witness :
    resolve_python_exe
      ⟨Except.ok (true, ""), Except.ok (), true, true, true, false, true,
        Except.ok 7, probeNever⟩ = PythonExe.venvParent :=
  (c7_interpreter_resolution_order _).2.1 rfl rfl rfl

/-- Claim C8: the window-close hook takes the tracked handle out (leaving
`None`), kills it and performs a blocking wait; with nothing tracked it
performs no action; in both cases the slot is `None` afterwards. -/
theorem c8_shutdown_hook_drains_slot (state : Option Nat) :
    (shutdown_hook state).1 = none ∧
    (state = none → (shutdown_hook state).2 = []) ∧
    (∀ pid, state = some pid →
      (shutdown_hook state).2 = [Event.kill pid, Event.wait pid]) := by
  cases state <;> simp [shutdown_hook]

/-- Witness for C8 on an empty slot and on a tracked pid 42. -/
theorem c8_shutdown_hook_drains_slot_witness :
    (shutdown_hook none).1 = none ∧ (shutdown_hook none).2 = [] ∧
    (shutdown_hook (some 42)).1 = none ∧
    (shutdown_hook (some 42)).2 = [Event.kill 42, Event.wait 42] :=
  ⟨(c8_shutdown_hook_drains_slot none).1,
    (c8_shutdown_hook_drains_slot none).2.1 rfl,
    (c8_shutdown_hook_drains_slot (some 42)).1,
    (c8_shutdown_hook_drains_slot (some 42)).2.2 42 rfl⟩

/-- Claim C9: when the introspection finds no process on the port (empty
`lsof` output), the reclaimer returns success immediately with no events
at all — in particular no grace sleep; conversely a grace sleep occurs
only when `lsof` succeeded with non-empty output, and then it is the
last event, after all the kill events. -/
theorem c9_port_reclaimer_no_process_no_sleep (succ : Bool) (out : String) :
    (out.isEmpty = true →
      kill_process_on_port (Except.ok (succ, out)) = Except.ok []) ∧
    (∀ evs, kill_process_on_port (Except.ok (succ, out)) = Except.ok evs →
      Event.portGrace ∈ evs →
      succ = true ∧ out.isEmpty = false ∧
      ∃ kills, evs = kills ++ [Event.portGrace] ∧
        ∀ e ∈ kills, ∃ p, e = Event.portKill p) := by
  by_cases hc : (succ && !out.isEmpty) = true
  · obtain ⟨hs, hne⟩ := Bool.and_eq_true_iff.mp hc
    constructor
    · intro he; rw [he] at hne; simp at hne
    · intro evs hevs _
      rw [kill_process_on_port, if_pos hc] at hevs
      refine ⟨hs, by simpa using hne, ?_⟩
      refine ⟨_, (Except.ok.inj hevs).symm, ?_⟩
      intro e he
      obtain ⟨p, hpmem, hpe⟩ := List.mem_map.mp he
      exact ⟨p.trim, hpe.symm⟩
  · constructor
    · intro _; rw [kill_process_on_port, if_neg hc]
    · intro evs hevs hg
      rw [kill_process_on_port, if_neg hc] at hevs
      cases Except.ok.inj hevs
      simp at hg

/-!  Lemmas about the port reclaimer's event shape and the unfolding of
`start_python_backend` on each branch of its environment. -/

theorem kill_process_on_port_events (ls : Except String (Bool × String))
    (evs : List Event) (h : kill_process_on_port ls = Except.ok evs) :
    ∀ e ∈ evs, (∃ p, e = Event.portKill p) ∨ e = Event.portGrace := by
  cases ls with
  | error e => simp [kill_process_on_port] at h
  | ok pr =>
    obtain ⟨succ, out⟩ := pr
    by_cases hc : (succ && !out.isEmpty) = true
    · rw [kill_process_on_port, if_pos hc] at h
      cases Except.ok.inj h
      intro e he
      rcases List.mem_append.mp he with hk | hg
      · obtain ⟨p, hpmem, hpe⟩ := List.mem_map.mp hk
        exact Or.inl ⟨p.trim, hpe.symm⟩
      · exact Or.inr (by simpa using hg)
    · rw [kill_process_on_port, if_neg hc] at h
      cases Except.ok.inj h
      simp

theorem portEventsOf_shape (env : Env) :
    ∀ e ∈ portEventsOf env,
      (∃ p, e = Event.portKill p) ∨ e = Event.portGrace := by
  unfold portEventsOf
  cases hk : kill_process_on_port env.lsofResult with
  | error e => simp
  | ok evs => exact kill_process_on_port_events env.lsofResult evs hk

theorem portEventsOf_no_child_events (env : Env) (pid : Nat) :
    Event.kill pid ∉ portEventsOf env ∧
    Event.wait pid ∉ portEventsOf env ∧
    Event.spawned pid ∉ portEventsOf env := by
  refine ⟨?_, ?_, ?_⟩ <;> intro h <;>
    rcases portEventsOf_shape env _ h with ⟨q, hq⟩ | hq <;> simp at hq

theorem start_unfold_dir_fail (env : Env) (s : Option Nat) (e : String)
    (hcd : env.currentDir = Except.ok ())
    (hrd : resolve_backend_dir env = Except.error e) :
    start_python_backend env s = ⟨Except.error e, s, portEventsOf env⟩ := by
  simp [start_python_backend, hcd, hrd]

theorem start_unfold_success (env : Env) (s : Option Nat) (pid : Nat)
    (hcd : env.currentDir = Except.ok ())
    (hrd : ∃ d, resolve_backend_dir env = Except.ok d)
    (hsp : env.spawn = Except.ok pid)
    (hpr : (wait_for_backend_ready env.probe 30 500).result = Except.ok ()) :
    start_python_backend env s =
      ⟨Except.ok "Python backend started successfully", some pid,
        portEventsOf env ++ killExisting s ++ [Event.spawned pid]⟩ := by
  obtain ⟨d, hrd⟩ := hrd
  simp [start_python_backend, hcd, hrd, hsp, hpr]

theorem start_unfold_timeout (env : Env) (s : Option Nat) (pid : Nat) (e : String)
    (hcd : env.currentDir = Except.ok ())
    (hrd : ∃ d, resolve_backend_dir env = Except.ok d)
    (hsp : env.spawn = Except.ok pid)
    (hpr : (wait_for_backend_ready env.probe 30 500).result = Except.error e) :
    start_python_backend env s =
      ⟨Except.error e, some pid,
        portEventsOf env ++ killExisting s ++ [Event.spawned pid]⟩ := by
  obtain ⟨d, hrd⟩ := hrd
  simp [start_python_backend, hcd, hrd, hsp, hpr]

theorem start_unfold_spawn_fail (env : Env) (s : Option Nat) (e : String)
    (hcd : env.currentDir = Except.ok ())
    (hrd : ∃ d, resolve_backend_dir env = Except.ok d)
    (hsp : env.spawn = Except.error e) :
    start_python_backend env s =
      ⟨Except.error ("Failed to start Python backend: " ++ e), none,
        portEventsOf env ++ killExisting s⟩ := by
  obtain ⟨d, hrd⟩ := hrd
  simp [start_python_backend, hcd, hrd, hsp]

theorem start_ok_cases (env : Env) (s : Option Nat)
    (hok : resultIsOk (start_python_backend env s).result = true) :
    env.currentDir = Except.ok () ∧
    (∃ dir, resolve_backend_dir env = Except.ok dir) ∧
    (∃ pid, env.spawn = Except.ok pid) ∧
    (wait_for_backend_ready env.probe 30 500).result = Except.ok () := by
  cases hcd : env.currentDir with
  | error e => simp [start_python_backend, hcd, resultIsOk] at hok
  | ok u =>
    cases u
    cases hrd : resolve_backend_dir env with
    | error e => simp [start_python_backend, hcd, hrd, resultIsOk] at hok
    | ok dir =>
      cases hsp : env.spawn with
      | error e => simp [start_python_backend, hcd, hrd, hsp, resultIsOk] at hok
      | ok pid =>
        cases hpr : (wait_for_backend_ready env.probe 30 500).result with
        | error e =>
          simp [start_python_backend, hcd, hrd, hsp, hpr, resultIsOk] at hok
        | ok u2 =>
          cases u2
          exact ⟨rfl, ⟨dir, rfl⟩, ⟨pid, rfl⟩, rfl⟩


/-- Claim C1: two successive successful `start` calls leave exactly one
tracked live process — the second one — and the first spawned process
was killed and reaped (a kill and a blocking wait on its pid) strictly
before the second handle was spawned and stored: the event suffix of the
second call is kill p1, wait p1, spawned p2. -/
theorem c1_two_starts_single_tracked (env1 env2 : Env) (p1 p2 : Nat)
    (h1 : env1.spawn = Except.ok p1) (h2 : env2.spawn = Except.ok p2)
    (hok1 : resultIsOk (start_python_backend env1 none).result = true)
    (hok2 : resultIsOk
      (start_python_backend env2
        (start_python_backend env1 none).state).result = true) :
    (start_python_backend env1 none).state = some p1 ∧
    (start_python_backend env2
      (start_python_backend env1 none).state).state = some p2 ∧
    ∃ pre,
      (start_python_backend env2
        (start_python_backend env1 none).state).events =
      pre ++ [Event.kill p1, Event.wait p1, Event.spawned p2] := by
  obtain ⟨hcd1, hdir1, ⟨q1, hq1⟩, hpr1⟩ := start_ok_cases env1 none hok1
  have hq1e : q1 = p1 := by
    rw [h1] at hq1
    exact (Except.ok.inj hq1).symm
  subst hq1e
  have hs1 := start_unfold_success env1 none q1 hcd1 hdir1 hq1 hpr1
  rw [hs1] at hok2 ⊢
  obtain ⟨hcd2, hdir2, ⟨q2, hq2⟩, hpr2⟩ := start_ok_cases env2 (some q1) hok2
  have hq2e : q2 = p2 := by
    rw [h2] at hq2
    exact (Except.ok.inj hq2).symm
  subst hq2e
  have hs2 := start_unfold_success env2 (some q1) q2 hcd2 hdir2 hq2 hpr2
  rw [hs2]
  refine ⟨rfl, rfl, portEventsOf env2, ?_⟩
  simp [killExisting]

/-- Claim C4: with the backend directory absent both under the current
directory and under its existing parent, `start` fails with the
directory-not-found message before any spawn attempt: the tracked slot
is untouched and no spawn, kill or wait of a child occurs. -/
theorem c4_dir_not_found_before_spawn (env : Env) (state : Option Nat)
    (hcd : env.currentDir = Except.ok ())
    (h1 : env.cwdHasBackendDir = false)
    (h2 : env.hasParent = true)
    (h3 : env.parentHasBackendDir = false) :
    (start_python_backend env state).result =
      Except.error ("Python backend directory not found at: " ++
        backendDirPath BackendDir.underParent) ∧
    (start_python_backend env state).state = state ∧
    (∀ p, Event.spawned p ∉ (start_python_backend env state).events) ∧
    (∀ p, Event.kill p ∉ (start_python_backend env state).events) := by
  have hrd : resolve_backend_dir env =
      Except.error ("Python backend directory not found at: " ++
        backendDirPath BackendDir.underParent) := by
    simp [resolve_backend_dir, h1, h2, backendDirExists, h3]
  have hs := start_unfold_dir_fail env state _ hcd hrd
  rw [hs]
  exact ⟨rfl, rfl,
    fun p => (portEventsOf_no_child_events env p).2.2,
    fun p => (portEventsOf_no_child_events env p).1⟩

/-- Witness environments: concrete instances of `Env`.  Field order:
lsofResult, currentDir, cwdHasBackendDir, hasParent, parentHasBackendDir,
cwdHasVenv, parentHasVenv, spawn, probe. -/
def envOkA : Env :=
  ⟨Except.ok (true, ""), Except.ok (), true, true, true, false, false,
    Except.ok 101, fun _ => ProbeOutcome.resp 200⟩

/-- A second all-good environment whose spawn yields pid 202. -/
def envOkB : Env :=
  ⟨Except.ok (true, ""), Except.ok (), true, true, true, false, false,
    Except.ok 202, fun _ => ProbeOutcome.resp 200⟩

/-- An environment with no backend directory anywhere. -/
def envNoDir : Env :=
  ⟨Except.ok (true, ""), Except.ok (), false, true, false, false, false,
    Except.ok 7, fun _ => ProbeOutcome.resp 200⟩

/-- An environment whose backend spawns (pid 7) but never answers. -/
def envNever : Env :=
  ⟨Except.ok (true, ""), Except.ok (), true, true, true, false, false,
    Except.ok 7, probeNever⟩

/-- An environment whose spawn fails with an OS error. -/
def envSpawnFail : Env :=
  ⟨Except.ok (true, ""), Except.ok (), true, true, true, false, false,
    Except.error "No such file or directory", fun _ => ProbeOutcome.resp 200⟩

/-- Witness for C1: both starts succeed; pid 101 is replaced by 202. -/
theorem c1_two_starts_single_tracked_witness :
    (start_python_backend envOkA none).state = some 101 ∧
    (start_python_backend envOkB
      (start_python_backend envOkA none).state).state = some 202 ∧
    (start_python_backend envOkB
      (start_python_backend envOkA none).state).events =
      [] ++ [Event.kill 101, Event.wait 101, Event.spawned 202] := by
  have h := c1_two_starts_single_tracked envOkA envOkB 101 202 rfl rfl
    (by rfl) (by rfl)
  exact ⟨h.1, h.2.1, rfl⟩

/-- Witness for C4 on `envNoDir` with an empty slot. -/
theorem c4_dir_not_found_before_spawn_witness :
    (start_python_backend envNoDir none).result =
      Except.error ("Python backend directory not found at: " ++
        backendDirPath BackendDir.underParent) ∧
    (start_python_backend envNoDir none).state = none ∧
    Event.spawned 7 ∉ (start_python_backend envNoDir none).events ∧
    Event.kill 7 ∉ (start_python_backend envNoDir none).events := by
  have h := c4_dir_not_found_before_spawn envNoDir none rfl rfl rfl rfl
  exact ⟨h.1, h.2.1, h.2.2.1 7, h.2.2.2 7⟩

/-- Claim C5: when the spawn succeeds but readiness polling exhausts its
30-attempt budget, `start` returns the timeout error while the newly
spawned pid stays stored in the slot; starting from an empty slot the
new process is neither killed nor reaped on this path. -/
theorem c5_timeout_leaves_process_tracked (env : Env) (state : Option Nat)
    (pid : Nat)
    (hcd : env.currentDir = Except.ok ())
    (hdir : ∃ d, resolve_backend_dir env = Except.ok d)
    (hsp : env.spawn = Except.ok pid)
    (hfail : ∀ i, outcomeSuccess (env.probe i) = false) :
    (start_python_backend env state).result =
      Except.error "Backend failed to start within timeout period" ∧
    (start_python_backend env state).state = some pid ∧
    (state = none →
      Event.kill pid ∉ (start_python_backend env state).events ∧
      Event.wait pid ∉ (start_python_backend env state).events) := by
  have hpr : (wait_for_backend_ready env.probe 30 500).result =
      Except.error "Backend failed to start within timeout period" := by
    unfold wait_for_backend_ready
    rw [runProbes_all_fail env.probe 500 30 1 (fun i _ _ => hfail i)]
  have hs := start_unfold_timeout env state pid _ hcd hdir hsp hpr
  rw [hs]
  refine ⟨rfl, rfl, ?_⟩
  rintro rfl
  constructor <;> intro hmem <;>
    rcases List.mem_append.mp hmem with hm | hm
  · exact (portEventsOf_no_child_events env pid).1
      (by simpa [killExisting] using hm)
  · simp [killExisting] at hm
  · exact (portEventsOf_no_child_events env pid).2.1
      (by simpa [killExisting] using hm)
  · simp [killExisting] at hm

/-- Witness for C5 on `envNever` with an empty slot: pid 7 stays
tracked after the timeout. -/
theorem c5_timeout_leaves_process_tracked_witness :
    (start_python_backend envNever none).result =
      Except.error "Backend failed to start within timeout period" ∧
    (start_python_backend envNever none).state = some 7 ∧
    Event.kill 7 ∉ (start_python_backend envNever none).events ∧
    Event.wait 7 ∉ (start_python_backend envNever none).events := by
  have h := c5_timeout_leaves_process_tracked envNever none 7 rfl
    ⟨BackendDir.underCwd, rfl⟩ rfl (fun _ => rfl)
  exact ⟨h.1, h.2.1, (h.2.2 rfl).1, (h.2.2 rfl).2⟩

/-- Claim C10: when `start` reaches the spawn step and the spawn fails,
the slot ends empty for every initial content: a previously tracked pid
was killed and reaped, nothing is restored and nothing new is spawned or
stored. -/
theorem c10_spawn_failure_leaves_nothing_tracked (env : Env)
    (state : Option Nat) (e : String)
    (hcd : env.currentDir = Except.ok ())
    (hdir : ∃ d, resolve_backend_dir env = Except.ok d)
    (hsp : env.spawn = Except.error e) :
    (start_python_backend env state).result =
      Except.error ("Failed to start Python backend: " ++ e) ∧
    (start_python_backend env state).state = none ∧
    (∀ q, state = some q →
      Event.kill q ∈ (start_python_backend env state).events ∧
      Event.wait q ∈ (start_python_backend env state).events) ∧
    (∀ p, Event.spawned p ∉ (start_python_backend env state).events) := by
  have hs := start_unfold_spawn_fail env state e hcd hdir hsp
  rw [hs]
  refine ⟨rfl, rfl, ?_, ?_⟩
  · rintro q rfl
    constructor <;> simp [killExisting]
  · intro p hp
    rcases List.mem_append.mp hp with hm | hm
    · exact (portEventsOf_no_child_events env p).2.2 hm
    · cases state <;> simp [killExisting] at hm

/-- Witness for C10 on `envSpawnFail` with pid 5 initially tracked. -/
theorem c10_spawn_failure_leaves_nothing_tracked_witness :
    (start_python_backend envSpawnFail (some 5)).result =
      Except.error
        ("Failed to start Python backend: " ++ "No such file or directory") ∧
    (start_python_backend envSpawnFail (some 5)).state = none ∧
    Event.kill 5 ∈ (start_python_backend envSpawnFail (some 5)).events ∧
    Event.wait 5 ∈ (start_python_backend envSpawnFail (some 5)).events ∧
    Event.spawned 5 ∉ (start_python_backend envSpawnFail (some 5)).events := by
  have h := c10_spawn_failure_leaves_nothing_tracked envSpawnFail (some 5)
    "No such file or directory" rfl ⟨BackendDir.underCwd, rfl⟩ rfl
  exact ⟨h.1, h.2.1, (h.2.2.1 5 rfl).1, (h.2.2.1 5 rfl).2, h.2.2.2 5⟩

/-- Witness for C9: empty `lsof` output gives immediate success with no
kill and no grace sleep. -/
theorem c9_port_reclaimer_no_process_no_sleep_witness :
    kill_process_on_port (Except.ok (true, "")) = Except.ok [] :=
  (c9_port_reclaimer_no_process_no_sleep true "").1 rfl

end AgnoSupervisor
